import Mathlib

/-!
Verification of the smc-utils protocol engine (smc-lib).

This file shallowly embeds the core of `smc-lib` — the SMC wire record,
the two-phase key read sequence, the size-checked write sequence, the
index-based enumeration (eager `list_all_values` and the lazy `ValIter`
iterator), and the typed value decoder — and proves the specified
properties about it.

Modelling conventions:
- Machine integers (`u8`, `u16`, `u32`, `u64`, `kern_return_t`) are
  modelled as `Nat` (or `Int` for the signed kernel return code); byte
  values are `Nat`s below 256 and reductions such as
  `u32::from_le_bytes` take the byte values modulo 256 explicitly.
- Byte arrays (`[u8; 4]`, `[u8; 32]`) are `List Nat`; in every state the
  code constructs they have the fixed length of the source type.
- The privileged IOKit channel (`IOConnectCallStructMethod` behind
  `smc_call`) is external to the core; it is modelled as an oracle
  `Chan : Nat → SMCKeyData → Except Int SMCKeyData` mapping a selector
  and a request record either to the response record the far side wrote
  into the output struct or to the non-success kernel return code.
- Every operation additionally returns the `Trace` of channel calls it
  issued, as the list of `(selector, request record)` pairs, so that
  properties of the form "fails without issuing the call" are statable.
- `f32::from_bits` is injective, so the two IEEE-754 interpretations of
  the `flt ` payload are carried as their 32-bit patterns.
- `String::from_utf8_lossy` produces the character sequence given by
  UTF-8 decoding with maximal-subpart replacement (U+FFFD); the decoded
  text is carried as that `List Char`.
-/

/-- Little-endian byte-list to unsigned integer, as in `uN::from_le_bytes`;
each byte is reduced modulo 256. -/
def from_le_bytes : List Nat → Nat
  | [] => 0
  | b :: l => b % 256 + 256 * from_le_bytes l

/-- Big-endian byte-list to unsigned integer, as in `uN::from_be_bytes`. -/
def from_be_bytes (l : List Nat) : Nat :=
  l.foldl (fun acc b => acc * 256 + b % 256) 0

/-- The four big-endian bytes of a `u32`, as in `u32::to_be_bytes`. -/
def u32_to_be_bytes (n : Nat) : List Nat :=
  [n / 2 ^ 24 % 256, n / 2 ^ 16 % 256, n / 2 ^ 8 % 256, n % 256]

/-- Two's-complement reading of the low `bits` bits, as in `iN::from_le_bytes`
applied to the corresponding unsigned value. -/
def toSigned (bits : Nat) (n : Nat) : Int :=
  if n % 2 ^ bits < 2 ^ (bits - 1) then (n % 2 ^ bits : Int)
  else (n % 2 ^ bits : Int) - 2 ^ bits

/- Constants from `structs.rs`. -/

/-- The single privileged call selector (`KERNEL_INDEX_SMC`). -/
def KERNEL_INDEX_SMC : Nat := 2

/-- Opcode `SMC_CMD_READ_BYTES`. -/
def SMC_CMD_READ_BYTES : Nat := 5

/-- Opcode `SMC_CMD_READ_INDEX`. -/
def SMC_CMD_READ_INDEX : Nat := 8

/-- Opcode `SMC_CMD_READ_KEYINFO`. -/
def SMC_CMD_READ_KEYINFO : Nat := 9

/-- Opcode `SMC_CMD_WRITE_BYTES`. -/
def SMC_CMD_WRITE_BYTES : Nat := 6

/-- Maximum size in bytes for SMC data (`SMC_BYTES_LEN`). -/
def SMC_BYTES_LEN : Nat := 32

/- Kernel return codes from `mach/kern_return.h`, used through `libc`. -/

/-- `KERN_INVALID_ARGUMENT`. -/
def KERN_INVALID_ARGUMENT : Int := 4

/-- `KERN_FAILURE`. -/
def KERN_FAILURE : Int := 5

/-- `KERN_NOT_SUPPORTED`. -/
def KERN_NOT_SUPPORTED : Int := 46

/-- Metadata about a SMC key (`SMCKeyData_keyInfo`): declared payload size,
4-character type tag packed big-endian into a `u32`, and the attribute
byte. Zero defaults mirror `Default`. -/
structure SMCKeyData_keyInfo where
  data_size : Nat := 0
  data_type : Nat := 0
  data_attributes : Nat := 0
deriving DecidableEq

/-- The wire record (`SMCKeyData`) exchanged in every privileged call.
`vers` and `plimit_data` are opaque zero-initialized blocks unused by the
core logic, modelled as single zero-default numbers. Field defaults
mirror `Default::default()`. -/
structure SMCKeyData where
  key : Nat := 0
  vers : Nat := 0
  plimit_data : Nat := 0
  key_info : SMCKeyData_keyInfo := {}
  result : Nat := 0
  status : Nat := 0
  data8 : Nat := 0
  data32 : Nat := 0
  bytes : List Nat := List.replicate 32 0
deriving DecidableEq

/-- A SMC key-value pair (`SMCVal`): 4-byte key, declared size, 4-byte
type tag and the 32-byte payload buffer. -/
structure SMCVal where
  key : List Nat := List.replicate 4 0
  data_size : Nat := 0
  data_type : List Nat := List.replicate 4 0
  bytes : List Nat := List.replicate 32 0
deriving DecidableEq

/-- Error information for a failed enumeration step (`ValError`); the
optional fields are populated progressively as the step advances. -/
structure ValError where
  err_code : Int := 0
  index : Nat := 0
  key : Option Nat := none
  data_size : Option Nat := none
  data_type : Option Nat := none
deriving DecidableEq

/-- The external privileged channel: a selector and a request record are
mapped to the response record or to the kernel error code, exactly one
round trip per invocation (`IOService::smc_call`). -/
abbrev Chan : Type := Nat → SMCKeyData → Except Int SMCKeyData

/-- The sequence of channel calls an operation issued, each as the pair
of the selector and the request record sent. -/
abbrev Trace : Type := List (Nat × SMCKeyData)

/-- `IOService::get_key_info_inner`: set the KEYINFO opcode on the input
record, issue the call, and turn the far side's sentinel `result == 132`
into `KERN_NOT_SUPPORTED`. Returns the trace, the updated input record
and the output record (the second parameter is the caller's output
buffer, fully overwritten by a successful call, hence unread). -/
def get_key_info_inner (ch : Chan) (input_struct : SMCKeyData)
    (_output_struct : SMCKeyData) : Trace × SMCKeyData × Except Int SMCKeyData :=
  let input_struct := { input_struct with data8 := SMC_CMD_READ_KEYINFO }
  match ch KERNEL_INDEX_SMC input_struct with
  | .error e => ([(KERNEL_INDEX_SMC, input_struct)], input_struct, .error e)
  | .ok out =>
    if out.result = 132 then
      ([(KERNEL_INDEX_SMC, input_struct)], input_struct, .error KERN_NOT_SUPPORTED)
    else
      ([(KERNEL_INDEX_SMC, input_struct)], input_struct, .ok out)

/-- `IOService::read_key_with_info`: given the record pair after a
KEYINFO call, echo the obtained `data_size` and `data_type` into the
input record, issue READ_BYTES and assemble the `SMCVal`. Returns the
trace, the updated input record (whose fields the iterator reads on
failure) and the result. -/
def read_key_with_info (ch : Chan) (input_struct output_struct : SMCKeyData) :
    Trace × SMCKeyData × Except Int SMCVal :=
  let val : SMCVal := { key := u32_to_be_bytes input_struct.key,
                        data_size := output_struct.key_info.data_size,
                        data_type := u32_to_be_bytes output_struct.key_info.data_type }
  let input_struct := { input_struct with
    key_info.data_size := output_struct.key_info.data_size,
    key_info.data_type := output_struct.key_info.data_type,
    data8 := SMC_CMD_READ_BYTES }
  match ch KERNEL_INDEX_SMC input_struct with
  | .error e => ([(KERNEL_INDEX_SMC, input_struct)], input_struct, .error e)
  | .ok out =>
    ([(KERNEL_INDEX_SMC, input_struct)], input_struct, .ok { val with bytes := out.bytes })

/-- `IOService::get_key_info`: KEYINFO on a fresh record pair, returning
the populated key-info sub-record. -/
def get_key_info (ch : Chan) (key : List Nat) : Trace × Except Int SMCKeyData_keyInfo :=
  let input_struct : SMCKeyData := { key := from_be_bytes key }
  let output_struct : SMCKeyData := {}
  match get_key_info_inner ch input_struct output_struct with
  | (t, _, .error e) => (t, .error e)
  | (t, _, .ok out) => (t, .ok out.key_info)

/-- `IOService::read_key`: KEYINFO on a fresh record pair, then
READ_BYTES echoing the obtained `data_size` (the input record's
`data_type` field is left at its zero default on this path), assembling
the `SMCVal` from the key, the KEYINFO metadata and the payload. -/
def read_key (ch : Chan) (key : List Nat) : Trace × Except Int SMCVal :=
  let input_struct : SMCKeyData := { key := from_be_bytes key }
  let output_struct : SMCKeyData := {}
  match get_key_info_inner ch input_struct output_struct with
  | (t, _, .error e) => (t, .error e)
  | (t, input_struct, .ok output_struct) =>
    let val : SMCVal := { key := key,
                          data_size := output_struct.key_info.data_size,
                          data_type := u32_to_be_bytes output_struct.key_info.data_type }
    let input_struct := { input_struct with
      key_info.data_size := output_struct.key_info.data_size,
      data8 := SMC_CMD_READ_BYTES }
    match ch KERNEL_INDEX_SMC input_struct with
    | .error e => (t ++ [(KERNEL_INDEX_SMC, input_struct)], .error e)
    | .ok out => (t ++ [(KERNEL_INDEX_SMC, input_struct)], .ok { val with bytes := out.bytes })

/-- The WRITE_BYTES request record `IOService::write_key` builds once
both length checks passed: key, opcode, declared size, and the value
zero-padded into the 32-byte buffer. -/
def write_request (key value : List Nat) : SMCKeyData :=
  { key := from_be_bytes key,
    data8 := SMC_CMD_WRITE_BYTES,
    key_info := { data_size := value.length },
    bytes := value ++ List.replicate (SMC_BYTES_LEN - value.length) 0 }

/-- `IOService::write_key`: reject values longer than 32 bytes before any
call; read the key, reject a `data_size` mismatch before the write call;
otherwise issue WRITE_BYTES with the zero-padded buffer. -/
def write_key (ch : Chan) (key value : List Nat) : Trace × Except Int Unit :=
  if SMC_BYTES_LEN < value.length then ([], .error KERN_INVALID_ARGUMENT)
  else
    match read_key ch key with
    | (t, .error e) => (t, .error e)
    | (t, .ok read_val) =>
      if read_val.data_size ≠ value.length then (t, .error KERN_INVALID_ARGUMENT)
      else
        match ch KERNEL_INDEX_SMC (write_request key value) with
        | .error e => (t ++ [(KERNEL_INDEX_SMC, write_request key value)], .error e)
        | .ok _ => (t ++ [(KERNEL_INDEX_SMC, write_request key value)], .ok ())

/-- The byte sequence of the reserved key `#KEY`
(0x23 0x4B 0x45 0x59). -/
def hash_key_bytes : List Nat := [0x23, 0x4B, 0x45, 0x59]

/-- `IOService::keys_count`: read the reserved key `#KEY`; a declared
size of exactly 4 yields the first four payload bytes big-endian, any
other size is `KERN_FAILURE`. -/
def keys_count (ch : Chan) : Trace × Except Int Nat :=
  match read_key ch hash_key_bytes with
  | (t, .error e) => (t, .error e)
  | (t, .ok val) =>
    if val.data_size = 4 then (t, .ok (from_be_bytes (val.bytes.take 4)))
    else (t, .error KERN_FAILURE)

/-- The READ_INDEX request record for index `i`, as built both by
`list_all_values` and by the iterator. -/
def read_index_request (i : Nat) : SMCKeyData :=
  { data8 := SMC_CMD_READ_INDEX, data32 := i }

/-- The loop body of `IOService::list_all_values` over the remaining
indices: READ_INDEX (a channel failure aborts with the error, the `?` in
the source), then `read_key` on the obtained key, skipping the index
when that read fails. -/
def list_all_go (ch : Chan) : List Nat → Trace × Except Int (List SMCVal)
  | [] => ([], .ok [])
  | i :: rest =>
    match ch KERNEL_INDEX_SMC (read_index_request i) with
    | .error e => ([(KERNEL_INDEX_SMC, read_index_request i)], .error e)
    | .ok out =>
      match read_key ch (u32_to_be_bytes out.key) with
      | (t, .error _) =>
        let (t2, r) := list_all_go ch rest
        ((KERNEL_INDEX_SMC, read_index_request i) :: t ++ t2, r)
      | (t, .ok v) =>
        let (t2, r) := list_all_go ch rest
        ((KERNEL_INDEX_SMC, read_index_request i) :: t ++ t2, r.map (fun vs => v :: vs))

/-- `IOService::list_all_values`: fetch the key count, then run the
per-index loop over `0 .. total_count`. -/
def list_all_values (ch : Chan) : Trace × Except Int (List SMCVal) :=
  match keys_count ch with
  | (t, .error e) => (t, .error e)
  | (t, .ok total_count) =>
    let (t2, r) := list_all_go ch (List.range total_count)
    (t ++ t2, r)

/-- The iterator state (`ValIter`): the fixed total count and the
mutable cursor. -/
structure ValIter where
  total_count : Nat
  current : Nat
deriving DecidableEq

/-- `IOService::values_iter`: fetch the key count once and build the
iterator with its cursor at zero. -/
def values_iter (ch : Chan) : Trace × Except Int ValIter :=
  match keys_count ch with
  | (t, .error e) => (t, .error e)
  | (t, .ok total_count) => (t, .ok { total_count := total_count, current := 0 })

/-- One `next()` of `impl Iterator for ValIter`: below the count, advance
the cursor, then READ_INDEX → KEYINFO → READ_BYTES reusing one record
pair, converting the failure of each sub-phase into the progressively
populated `ValError`; at or past the count, yield nothing. Returns the
advanced iterator, the trace of the step and the optional item. -/
def valIterNext (ch : Chan) (it : ValIter) : ValIter × Trace × Option (Except ValError SMCVal) :=
  if it.current < it.total_count then
    let current := it.current
    let it := { it with current := it.current + 1 }
    match ch KERNEL_INDEX_SMC (read_index_request current) with
    | .error err_code =>
      (it, [(KERNEL_INDEX_SMC, read_index_request current)],
       some (.error { err_code := err_code, index := current }))
    | .ok output_struct =>
      let input_struct := { read_index_request current with key := output_struct.key }
      match get_key_info_inner ch input_struct output_struct with
      | (t1, input_struct, .error err_code) =>
        (it, (KERNEL_INDEX_SMC, read_index_request current) :: t1,
         some (.error { err_code := err_code, index := current, key := some input_struct.key }))
      | (t1, input_struct, .ok output_struct) =>
        match read_key_with_info ch input_struct output_struct with
        | (t2, _, .ok v) =>
          (it, (KERNEL_INDEX_SMC, read_index_request current) :: t1 ++ t2, some (.ok v))
        | (t2, input_struct, .error err_code) =>
          (it, (KERNEL_INDEX_SMC, read_index_request current) :: t1 ++ t2,
           some (.error { err_code := err_code, index := current,
                          key := some input_struct.key,
                          data_size := some input_struct.key_info.data_size,
                          data_type := some input_struct.key_info.data_type }))
  else (it, [], none)

/-- Pull the iterator until it yields nothing, collecting the items; the
fuel bounds the number of pulls and the initial remaining count is
always enough. -/
def valIterRunAux (ch : Chan) : Nat → ValIter → List (Except ValError SMCVal)
  | 0, _ => []
  | fuel + 1, it =>
    match valIterNext ch it with
    | (it2, _, some x) => x :: valIterRunAux ch fuel it2
    | (_, _, none) => []

/-- The full sequence of items the iterator yields from its current state. -/
def valIterRun (ch : Chan) (it : ValIter) : List (Except ValError SMCVal) :=
  valIterRunAux ch (it.total_count - it.current) it

/-- `SMCVal::valid_bytes`: the declared size clamped to the buffer
length, taken as a prefix of the buffer. -/
def SMCVal.valid_bytes (v : SMCVal) : List Nat :=
  v.bytes.take (min v.data_size v.bytes.length)

/- The value decoder (`value.rs`). -/

/-- The recognized 4-byte type tags (`SmcTypeCode`). -/
inductive SmcTypeCode where
  | Flt
  | Ui8
  | Si8
  | Si16
  | Ui16
  | Ui32
  | Si32
  | Si64
  | Ui64
  | Chars
  | Flag
  | Ioft
deriving DecidableEq

/-- Byte sequence of the ASCII tag `flt ` (0x66 0x6C 0x74 0x20). -/
def tag_flt : List Nat := [0x66, 0x6C, 0x74, 0x20]

/-- Byte sequence of the ASCII tag `ui8 ` (0x75 0x69 0x38 0x20). -/
def tag_ui8 : List Nat := [0x75, 0x69, 0x38, 0x20]

/-- Byte sequence of the ASCII tag `si8 ` (0x73 0x69 0x38 0x20). -/
def tag_si8 : List Nat := [0x73, 0x69, 0x38, 0x20]

/-- Byte sequence of the ASCII tag `si16` (0x73 0x69 0x31 0x36). -/
def tag_si16 : List Nat := [0x73, 0x69, 0x31, 0x36]

/-- Byte sequence of the ASCII tag `ui16` (0x75 0x69 0x31 0x36). -/
def tag_ui16 : List Nat := [0x75, 0x69, 0x31, 0x36]

/-- Byte sequence of the ASCII tag `ui32` (0x75 0x69 0x33 0x32). -/
def tag_ui32 : List Nat := [0x75, 0x69, 0x33, 0x32]

/-- Byte sequence of the ASCII tag `si32` (0x73 0x69 0x33 0x32). -/
def tag_si32 : List Nat := [0x73, 0x69, 0x33, 0x32]

/-- Byte sequence of the ASCII tag `si64` (0x73 0x69 0x36 0x34). -/
def tag_si64 : List Nat := [0x73, 0x69, 0x36, 0x34]

/-- Byte sequence of the ASCII tag `ui64` (0x75 0x69 0x36 0x34). -/
def tag_ui64 : List Nat := [0x75, 0x69, 0x36, 0x34]

/-- Byte sequence of the ASCII tag `ch8*` (0x63 0x68 0x38 0x2A). -/
def tag_ch8s : List Nat := [0x63, 0x68, 0x38, 0x2A]

/-- Byte sequence of the ASCII tag `flag` (0x66 0x6C 0x61 0x67). -/
def tag_flag : List Nat := [0x66, 0x6C, 0x61, 0x67]

/-- Byte sequence of the ASCII tag `ioft` (0x69 0x6F 0x66 0x74). -/
def tag_ioft : List Nat := [0x69, 0x6F, 0x66, 0x74]

/-- `SmcTypeCode::from_bytes`: match the 4-byte tag against the
recognized codes. -/
def SmcTypeCode.from_bytes (code : List Nat) : Option SmcTypeCode :=
  if code = tag_flt then some .Flt
  else if code = tag_ui8 then some .Ui8
  else if code = tag_si8 then some .Si8
  else if code = tag_si16 then some .Si16
  else if code = tag_ui16 then some .Ui16
  else if code = tag_ui32 then some .Ui32
  else if code = tag_si32 then some .Si32
  else if code = tag_si64 then some .Si64
  else if code = tag_ui64 then some .Ui64
  else if code = tag_ch8s then some .Chars
  else if code = tag_flag then some .Flag
  else if code = tag_ioft then some .Ioft
  else none

/-- A parsed SMC value (`SmcValue`). The `F32` variant carries the two
IEEE-754 single-precision interpretations of the leading 4 payload
bytes as their 32-bit patterns (`f32::from_bits` is injective), one
from the little-endian and one from the big-endian reading. `Chars`
carries the decoded character sequence. -/
inductive SmcValue where
  | F32 (le be : Nat)
  | U8 (v : Nat)
  | I8 (v : Int)
  | I16 (v : Int)
  | U16 (v : Nat)
  | U32 (v : Nat)
  | I32 (v : Int)
  | I64 (v : Int)
  | U64 (v : Nat)
  | Bool (v : Bool)
  | Chars (s : List Char)
  | Ioft48_16 (raw : Nat)
deriving DecidableEq

/-- The replacement character U+FFFD. -/
def replacementChar : Char := Char.ofNat 0xFFFD

/-- UTF-8 decoding with maximal-subpart replacement, the semantics of
`String::from_utf8_lossy`: each maximal valid prefix of a well-formed
sequence that fails to complete is replaced by one U+FFFD. The fuel is
an upper bound on the number of decoded characters; each step consumes
at least one byte, so the byte count suffices. -/
def utf8DecodeAux : Nat → List Nat → List Char
  | 0, _ => []
  | _, [] => []
  | fuel + 1, b :: rest =>
    if b < 0x80 then Char.ofNat b :: utf8DecodeAux fuel rest
    else if 0xC2 ≤ b && b ≤ 0xDF then
      match rest with
      | [] => [replacementChar]
      | b1 :: rest1 =>
        if 0x80 ≤ b1 && b1 ≤ 0xBF then
          Char.ofNat ((b - 0xC0) * 64 + (b1 - 0x80)) :: utf8DecodeAux fuel rest1
        else replacementChar :: utf8DecodeAux fuel rest
    else if 0xE0 ≤ b && b ≤ 0xEF then
      let lo := if b = 0xE0 then 0xA0 else 0x80
      let hi := if b = 0xED then 0x9F else 0xBF
      match rest with
      | [] => [replacementChar]
      | b1 :: rest1 =>
        if lo ≤ b1 && b1 ≤ hi then
          match rest1 with
          | [] => [replacementChar]
          | b2 :: rest2 =>
            if 0x80 ≤ b2 && b2 ≤ 0xBF then
              Char.ofNat ((b - 0xE0) * 4096 + (b1 - 0x80) * 64 + (b2 - 0x80)) ::
                utf8DecodeAux fuel rest2
            else replacementChar :: utf8DecodeAux fuel rest1
        else replacementChar :: utf8DecodeAux fuel rest
    else if 0xF0 ≤ b && b ≤ 0xF4 then
      let lo := if b = 0xF0 then 0x90 else 0x80
      let hi := if b = 0xF4 then 0x8F else 0xBF
      match rest with
      | [] => [replacementChar]
      | b1 :: rest1 =>
        if lo ≤ b1 && b1 ≤ hi then
          match rest1 with
          | [] => [replacementChar]
          | b2 :: rest2 =>
            if 0x80 ≤ b2 && b2 ≤ 0xBF then
              match rest2 with
              | [] => [replacementChar]
              | b3 :: rest3 =>
                if 0x80 ≤ b3 && b3 ≤ 0xBF then
                  Char.ofNat ((b - 0xF0) * 262144 + (b1 - 0x80) * 4096 +
                      (b2 - 0x80) * 64 + (b3 - 0x80)) :: utf8DecodeAux fuel rest3
                else replacementChar :: utf8DecodeAux fuel rest2
            else replacementChar :: utf8DecodeAux fuel rest1
        else replacementChar :: utf8DecodeAux fuel rest
    else replacementChar :: utf8DecodeAux fuel rest

/-- The character sequence of `String::from_utf8_lossy` on a byte list. -/
def from_utf8_lossy (l : List Nat) : List Char :=
  utf8DecodeAux l.length l

/-- `parse_smc_value`: decode the 32-byte payload according to the type
code. All multi-byte integers are little-endian from the leading bytes
(`TakeN::take`); `flt ` is read under both byte orders; `ch8*` is
trimmed at the first NUL (`position` of the first zero, or the whole
buffer) and decoded lossily. -/
def parse_smc_value (type_code : SmcTypeCode) (data : List Nat) : SmcValue :=
  match type_code with
  | .Flt => SmcValue.F32 (from_le_bytes (data.take 4)) (from_be_bytes (data.take 4))
  | .Ui8 => SmcValue.U8 (data.headD 0)
  | .Si8 => SmcValue.I8 (toSigned 8 (data.headD 0))
  | .Si16 => SmcValue.I16 (toSigned 16 (from_le_bytes (data.take 2)))
  | .Ui16 => SmcValue.U16 (from_le_bytes (data.take 2))
  | .Ui32 => SmcValue.U32 (from_le_bytes (data.take 4))
  | .Si32 => SmcValue.I32 (toSigned 32 (from_le_bytes (data.take 4)))
  | .Si64 => SmcValue.I64 (toSigned 64 (from_le_bytes (data.take 8)))
  | .Ui64 => SmcValue.U64 (from_le_bytes (data.take 8))
  | .Flag => SmcValue.Bool (data.headD 0 != 0)
  | .Chars => SmcValue.Chars (from_utf8_lossy (data.take (data.findIdx (fun c => c == 0))))
  | .Ioft => SmcValue.Ioft48_16 (from_le_bytes (data.take 8))

/-- `SMCVal::data_value`: decode the payload when the type tag is
recognized. -/
def SMCVal.data_value (v : SMCVal) : Option SmcValue :=
  (SmcTypeCode.from_bytes v.data_type).map (fun tc => parse_smc_value tc v.bytes)

/- Concrete channels used to witness the theorems. They respond by
opcode, ignoring the key, so any request sequence is answered. -/

/-- The `ui32` tag packed big-endian into a `u32`. -/
def tUI32 : Nat := from_be_bytes tag_ui32

/-- The byte sequence of the key `ABCD` (0x41 0x42 0x43 0x44). -/
def abcd_bytes : List Nat := [0x41, 0x42, 0x43, 0x44]

/-- The key `ABCD` packed big-endian into a `u32`. -/
def kABCD : Nat := from_be_bytes abcd_bytes

/-- A channel on which every call succeeds: KEYINFO declares a 4-byte
`ui32` value, READ_BYTES returns the payload 0,0,0,1, READ_INDEX maps
every index to the key `ABCD`. -/
def chGood : Chan := fun _ inp =>
  if inp.data8 = SMC_CMD_READ_KEYINFO then
    .ok { key_info := { data_size := 4, data_type := tUI32 } }
  else if inp.data8 = SMC_CMD_READ_BYTES then
    .ok { bytes := [0, 0, 0, 1] ++ List.replicate 28 0 }
  else if inp.data8 = SMC_CMD_READ_INDEX then
    .ok { key := kABCD }
  else .ok {}

/-- Like `chGood` but KEYINFO declares `data_size = 2`, so the `#KEY`
read succeeds with a size other than 4. -/
def chBadSize : Chan := fun _ inp =>
  if inp.data8 = SMC_CMD_READ_KEYINFO then
    .ok { key_info := { data_size := 2, data_type := tUI32 } }
  else .ok {}

/-- Like `chGood` but every READ_INDEX call fails with code 7. -/
def chIdxFail : Chan := fun _ inp =>
  if inp.data8 = SMC_CMD_READ_INDEX then .error 7
  else if inp.data8 = SMC_CMD_READ_KEYINFO then
    .ok { key_info := { data_size := 4, data_type := tUI32 } }
  else if inp.data8 = SMC_CMD_READ_BYTES then
    .ok { bytes := [0, 0, 0, 1] ++ List.replicate 28 0 }
  else .ok {}

/-- A channel whose KEYINFO response carries the sentinel
`result = 132`; READ_INDEX yields the key `ABCD`. -/
def ch132 : Chan := fun _ inp =>
  if inp.data8 = SMC_CMD_READ_KEYINFO then .ok { result := 132 }
  else if inp.data8 = SMC_CMD_READ_INDEX then .ok { key := kABCD }
  else .ok {}

/-- A channel on which READ_INDEX and KEYINFO succeed but READ_BYTES
fails with code 9. -/
def chRBFail : Chan := fun _ inp =>
  if inp.data8 = SMC_CMD_READ_KEYINFO then
    .ok { key_info := { data_size := 4, data_type := tUI32 } }
  else if inp.data8 = SMC_CMD_READ_BYTES then .error 9
  else if inp.data8 = SMC_CMD_READ_INDEX then .ok { key := kABCD }
  else .ok {}

/-- A channel on which every KEYINFO call fails with code 3, so
`keys_count` itself fails. -/
def chCntFail : Chan := fun _ inp =>
  if inp.data8 = SMC_CMD_READ_KEYINFO then .error 3
  else .ok {}

/- Helper lemmas about the decoder. -/

/-- The index of the first zero in `pre ++ 0 :: post` is `pre.length`
when `pre` has no zero. -/
theorem findIdx_zero_append (pre post : List Nat) (h : ∀ b ∈ pre, b ≠ 0) :
    (pre ++ 0 :: post).findIdx (fun c => c == 0) = pre.length := by
  induction pre with
  | nil => simp [List.findIdx_cons]
  | cons a l ih =>
    have ha : (a == 0) = false := by simpa using h a (by simp)
    simp [List.findIdx_cons, ha, ih (fun b hb => h b (by simp [hb]))]

/-- A zero-free list has no first zero: `findIdx` returns the length. -/
theorem findIdx_zero_none (data : List Nat) (h : ∀ b ∈ data, b ≠ 0) :
    data.findIdx (fun c => c == 0) = data.length := by
  induction data with
  | nil => simp
  | cons a l ih =>
    have ha : (a == 0) = false := by simpa using h a (by simp)
    simp [List.findIdx_cons, ha, ih (fun b hb => h b (by simp [hb]))]

/-- C10: for every key-value with the 32-byte buffer of the source type,
`valid_bytes` is exactly the first `min data_size 32` bytes of the
buffer — a prefix of it — and the clamped size never exceeds the buffer
length, so the slice bound is always in range (no panic) even when the
far side declared a `data_size` greater than 32. -/
theorem valid_bytes_spec (v : SMCVal) (h : v.bytes.length = 32) :
    v.valid_bytes = v.bytes.take (min v.data_size 32) ∧
    v.valid_bytes.length = min v.data_size 32 ∧
    v.valid_bytes <+: v.bytes ∧
    min v.data_size v.bytes.length ≤ v.bytes.length := by
  unfold SMCVal.valid_bytes
  rw [h]
  refine ⟨rfl, ?_, List.take_prefix _ _, by omega⟩
  rw [List.length_take, h]
  omega

/-- Witness for `valid_bytes_spec`: a declared size of 100 on a 32-byte
buffer is clamped to the full buffer. -/
theorem valid_bytes_spec_witness :
    (({ data_size := 100 } : SMCVal)).valid_bytes.length = min 100 32 :=
  (valid_bytes_spec { data_size := 100 } (by decide)).2.1

/-- C8: the `flt ` decoding carries the two IEEE-754 single-precision
interpretations of the same leading 4 payload bytes, as the bit pattern
read little-endian and the bit pattern read big-endian; on the payload
0x00 0x00 0x80 0x3F the little-endian pattern is 0x3F800000 (the
pattern of 1.0f) and the big-endian pattern is 0x0000803F, and the two
differ. -/
theorem flt_decode_spec :
    (∀ data : List Nat, parse_smc_value SmcTypeCode.Flt data =
      SmcValue.F32 (from_le_bytes (data.take 4)) (from_be_bytes (data.take 4))) ∧
    parse_smc_value SmcTypeCode.Flt ([0x00, 0x00, 0x80, 0x3F] ++ List.replicate 28 0) =
      SmcValue.F32 0x3F800000 0x0000803F ∧
    (0x3F800000 : Nat) ≠ 0x0000803F :=
  ⟨fun _ => rfl, by decide, by decide⟩

set_option maxHeartbeats 1000000 in
/-- C9: the decoder yields `none` exactly on unrecognized type tags (the
twelve listed tags are the recognized ones); `ui16` decodes the two
leading bytes little-endian; `flag` decodes the first byte to `false`
exactly when it is zero; `ch8*` decodes the bytes before the first zero
byte (all of them when none is zero) with lossy replacement. -/
theorem decoder_spec :
    (∀ v : SMCVal, v.data_value = none ↔ SmcTypeCode.from_bytes v.data_type = none) ∧
    (∀ code : List Nat, SmcTypeCode.from_bytes code = none ↔
      code ∉ [tag_flt, tag_ui8, tag_si8, tag_si16, tag_ui16, tag_ui32, tag_si32,
              tag_si64, tag_ui64, tag_ch8s, tag_flag, tag_ioft]) ∧
    (∀ rest, parse_smc_value SmcTypeCode.Ui16 (0x34 :: 0x12 :: rest) = SmcValue.U16 0x1234) ∧
    (∀ rest, parse_smc_value SmcTypeCode.Flag (0 :: rest) = SmcValue.Bool false) ∧
    (∀ b rest, b ≠ 0 → parse_smc_value SmcTypeCode.Flag (b :: rest) = SmcValue.Bool true) ∧
    (∀ pre post, (∀ b ∈ pre, b ≠ 0) →
      parse_smc_value SmcTypeCode.Chars (pre ++ 0 :: post) =
        SmcValue.Chars (from_utf8_lossy pre)) ∧
    (∀ data : List Nat, (∀ b ∈ data, b ≠ 0) →
      parse_smc_value SmcTypeCode.Chars data = SmcValue.Chars (from_utf8_lossy data)) ∧
    parse_smc_value SmcTypeCode.Chars ([0x4F, 0x4B] ++ List.replicate 30 0) =
      SmcValue.Chars ['O', 'K'] := by
  refine ⟨?_, ?_, fun _ => rfl, fun _ => rfl, ?_, ?_, ?_, by decide⟩
  · intro v
    simp [SMCVal.data_value]
  · intro code
    constructor
    · intro hnone hmem
      simp only [List.mem_cons, List.not_mem_nil, or_false] at hmem
      rcases hmem with h | h | h | h | h | h | h | h | h | h | h | h <;>
        (subst h; revert hnone; decide)
    · intro hmem
      unfold SmcTypeCode.from_bytes
      rw [if_neg (fun h => hmem (by rw [h]; decide)),
          if_neg (fun h => hmem (by rw [h]; decide)),
          if_neg (fun h => hmem (by rw [h]; decide)),
          if_neg (fun h => hmem (by rw [h]; decide)),
          if_neg (fun h => hmem (by rw [h]; decide)),
          if_neg (fun h => hmem (by rw [h]; decide)),
          if_neg (fun h => hmem (by rw [h]; decide)),
          if_neg (fun h => hmem (by rw [h]; decide)),
          if_neg (fun h => hmem (by rw [h]; decide)),
          if_neg (fun h => hmem (by rw [h]; decide)),
          if_neg (fun h => hmem (by rw [h]; decide)),
          if_neg (fun h => hmem (by rw [h]; decide))]
  · intro b rest hb
    simp [parse_smc_value, hb]
  · intro pre post h
    simp [parse_smc_value, findIdx_zero_append pre post h, List.take_left]
  · intro data h
    simp [parse_smc_value, findIdx_zero_none data h]

/-- Witness for `decoder_spec`: the nonzero-flag and the NUL-trimming
branches at concrete inputs. -/
theorem decoder_spec_witness :
    parse_smc_value SmcTypeCode.Flag (1 :: List.replicate 31 0) = SmcValue.Bool true ∧
    parse_smc_value SmcTypeCode.Chars ([0x4F, 0x4B] ++ 0 :: List.replicate 29 0) =
      SmcValue.Chars (from_utf8_lossy [0x4F, 0x4B]) ∧
    parse_smc_value SmcTypeCode.Chars [0x4F, 0x4B] =
      SmcValue.Chars (from_utf8_lossy [0x4F, 0x4B]) :=
  ⟨decoder_spec.2.2.2.2.1 1 (List.replicate 31 0) (by decide),
   decoder_spec.2.2.2.2.2.1 [0x4F, 0x4B] (List.replicate 29 0) (by decide),
   decoder_spec.2.2.2.2.2.2.1 [0x4F, 0x4B] (by decide)⟩

/- Characterizations of the engine operations, by cases on the channel's
responses. -/

/-- The KEYINFO request record the engine issues for `key` on the fresh
record path (`get_key_info` / `read_key`). -/
def keyinfo_request (key : List Nat) : SMCKeyData :=
  { key := from_be_bytes key, data8 := SMC_CMD_READ_KEYINFO }

/-- The READ_BYTES request record `read_key` issues after a KEYINFO
response declaring size `ds`: the size is echoed, the `data_type` field
keeps its zero default. -/
def read_bytes_request (key : List Nat) (ds : Nat) : SMCKeyData :=
  { key := from_be_bytes key, data8 := SMC_CMD_READ_BYTES, key_info := { data_size := ds } }

/-- When the KEYINFO call fails, `read_key` stops after that single call
and surfaces the channel error. -/
theorem read_key_keyinfo_error (ch : Chan) (key : List Nat) (e : Int)
    (herr : ch KERNEL_INDEX_SMC (keyinfo_request key) = .error e) :
    read_key ch key = ([(KERNEL_INDEX_SMC, keyinfo_request key)], .error e) := by
  unfold read_key get_key_info_inner
  simp only [keyinfo_request] at herr
  dsimp only
  rw [herr]
  simp [keyinfo_request]

/-- When the KEYINFO response carries the sentinel `result = 132`,
`read_key` stops after that single call with `KERN_NOT_SUPPORTED`. -/
theorem read_key_not_supported (ch : Chan) (key : List Nat) (out : SMCKeyData)
    (hok : ch KERNEL_INDEX_SMC (keyinfo_request key) = .ok out)
    (h132 : out.result = 132) :
    read_key ch key = ([(KERNEL_INDEX_SMC, keyinfo_request key)], .error KERN_NOT_SUPPORTED) := by
  unfold read_key get_key_info_inner
  simp only [keyinfo_request] at hok
  dsimp only
  rw [hok]
  simp [h132, keyinfo_request]

/-- After a successful non-sentinel KEYINFO response, `read_key` issues
exactly the READ_BYTES request echoing the declared size, and assembles
the value from the key, the KEYINFO metadata and the READ_BYTES
payload. -/
theorem read_key_after_keyinfo (ch : Chan) (key : List Nat) (out : SMCKeyData)
    (hok : ch KERNEL_INDEX_SMC (keyinfo_request key) = .ok out)
    (h132 : out.result ≠ 132) :
    read_key ch key =
      match ch KERNEL_INDEX_SMC (read_bytes_request key out.key_info.data_size) with
      | .error e =>
        ([(KERNEL_INDEX_SMC, keyinfo_request key),
          (KERNEL_INDEX_SMC, read_bytes_request key out.key_info.data_size)], .error e)
      | .ok out2 =>
        ([(KERNEL_INDEX_SMC, keyinfo_request key),
          (KERNEL_INDEX_SMC, read_bytes_request key out.key_info.data_size)],
         .ok { key := key, data_size := out.key_info.data_size,
               data_type := u32_to_be_bytes out.key_info.data_type,
               bytes := out2.bytes }) := by
  unfold read_key get_key_info_inner
  simp only [keyinfo_request] at hok
  dsimp only
  rw [hok]
  simp only [h132, ite_false, if_false, if_neg, not_false_iff]
  rcases h2 : ch KERNEL_INDEX_SMC (read_bytes_request key out.key_info.data_size) with e | out2 <;>
    simp only [read_bytes_request] at h2 <;>
    rw [h2] <;>
    simp [keyinfo_request, read_bytes_request]

/-- `get_key_info` on a failing KEYINFO call surfaces the channel
error after that single call. -/
theorem get_key_info_error (ch : Chan) (key : List Nat) (e : Int)
    (herr : ch KERNEL_INDEX_SMC (keyinfo_request key) = .error e) :
    get_key_info ch key = ([(KERNEL_INDEX_SMC, keyinfo_request key)], .error e) := by
  unfold get_key_info get_key_info_inner
  simp only [keyinfo_request] at herr
  dsimp only
  rw [herr]
  simp [keyinfo_request]

/-- `get_key_info` on a sentinel `result = 132` response fails with
`KERN_NOT_SUPPORTED` after the single KEYINFO call. -/
theorem get_key_info_132 (ch : Chan) (key : List Nat) (out : SMCKeyData)
    (hok : ch KERNEL_INDEX_SMC (keyinfo_request key) = .ok out)
    (h132 : out.result = 132) :
    get_key_info ch key = ([(KERNEL_INDEX_SMC, keyinfo_request key)], .error KERN_NOT_SUPPORTED) := by
  unfold get_key_info get_key_info_inner
  simp only [keyinfo_request] at hok
  dsimp only
  rw [hok]
  simp [h132, keyinfo_request]

/-- `get_key_info` on a successful non-sentinel response returns the
populated key-info sub-record after the single KEYINFO call. -/
theorem get_key_info_ok (ch : Chan) (key : List Nat) (out : SMCKeyData)
    (hok : ch KERNEL_INDEX_SMC (keyinfo_request key) = .ok out)
    (h132 : out.result ≠ 132) :
    get_key_info ch key = ([(KERNEL_INDEX_SMC, keyinfo_request key)], .ok out.key_info) := by
  unfold get_key_info get_key_info_inner
  simp only [keyinfo_request] at hok
  dsimp only
  rw [hok]
  simp [h132, keyinfo_request]

/-- Every channel call `read_key` issues carries the KEYINFO or the
READ_BYTES opcode (in particular never WRITE_BYTES). -/
theorem read_key_trace_opcodes (ch : Chan) (key : List Nat) :
    ∀ c ∈ (read_key ch key).1,
      (c.2).data8 = SMC_CMD_READ_KEYINFO ∨ (c.2).data8 = SMC_CMD_READ_BYTES := by
  intro c hc
  rcases h : ch KERNEL_INDEX_SMC (keyinfo_request key) with e | out
  · rw [read_key_keyinfo_error ch key e h] at hc
    simp at hc
    rw [hc]
    left
    rfl
  · by_cases h132 : out.result = 132
    · rw [read_key_not_supported ch key out h h132] at hc
      simp at hc
      rw [hc]
      left
      rfl
    · rw [read_key_after_keyinfo ch key out h h132] at hc
      split at hc <;> simp at hc <;>
        rcases hc with hc | hc <;> rw [hc] <;> simp [keyinfo_request, read_bytes_request]

/-- Decidable equality of channel results, for evaluating the engine on
the concrete channels. -/
instance {α β : Type} [DecidableEq α] [DecidableEq β] : DecidableEq (Except α β) := fun a b =>
  match a, b with
  | .error x, .error y =>
    if h : x = y then .isTrue (by rw [h]) else .isFalse (by simp [h])
  | .ok x, .ok y =>
    if h : x = y then .isTrue (by rw [h]) else .isFalse (by simp [h])
  | .error _, .ok _ => .isFalse (by simp)
  | .ok _, .error _ => .isFalse (by simp)

/-- C7: when the KEYINFO response record for a key carries the sentinel
`result = 132`, `get_key_info` fails with `KERN_NOT_SUPPORTED` after
that single KEYINFO call, and so does `read_key`, which begins with the
same KEYINFO phase — in both cases the trace is that one call, so no
further call is made; when `result ≠ 132` and the channel call
succeeded, the populated key-info sub-record is returned. -/
theorem get_key_info_not_supported (ch : Chan) (key : List Nat) (out : SMCKeyData)
    (hok : ch KERNEL_INDEX_SMC (keyinfo_request key) = .ok out) :
    (out.result = 132 →
      get_key_info ch key =
        ([(KERNEL_INDEX_SMC, keyinfo_request key)], .error KERN_NOT_SUPPORTED) ∧
      read_key ch key =
        ([(KERNEL_INDEX_SMC, keyinfo_request key)], .error KERN_NOT_SUPPORTED)) ∧
    (out.result ≠ 132 →
      get_key_info ch key = ([(KERNEL_INDEX_SMC, keyinfo_request key)], .ok out.key_info)) :=
  ⟨fun h => ⟨get_key_info_132 ch key out hok h, read_key_not_supported ch key out hok h⟩,
   fun h => get_key_info_ok ch key out hok h⟩

/-- Witness for `get_key_info_not_supported`: on the channel whose
KEYINFO responses carry `result = 132`, both lookups of `ABCD` fail
with `KERN_NOT_SUPPORTED`; on the all-succeeding channel the metadata
is returned. -/
theorem get_key_info_not_supported_witness :
    (get_key_info ch132 abcd_bytes).2 = .error KERN_NOT_SUPPORTED ∧
    (read_key ch132 abcd_bytes).2 = .error KERN_NOT_SUPPORTED ∧
    (get_key_info chGood abcd_bytes).2 = .ok { data_size := 4, data_type := tUI32 } := by
  refine ⟨?_, ?_, ?_⟩
  · rw [((get_key_info_not_supported ch132 abcd_bytes { result := 132 } rfl).1 (by decide)).1]
  · rw [((get_key_info_not_supported ch132 abcd_bytes { result := 132 } rfl).1 (by decide)).2]
  · rw [(get_key_info_not_supported chGood abcd_bytes
      { key_info := { data_size := 4, data_type := tUI32 } } rfl).2 (by decide)]

/-- C4: `keys_count` performs exactly the `read_key` of the reserved key
`#KEY` (same trace); when that read succeeds, a declared `data_size` of
4 yields the first four payload bytes big-endian, and any other size
fails with `KERN_FAILURE` even though the channel calls succeeded. -/
theorem keys_count_spec (ch : Chan) :
    (keys_count ch).1 = (read_key ch hash_key_bytes).1 ∧
    (∀ e, (read_key ch hash_key_bytes).2 = .error e → (keys_count ch).2 = .error e) ∧
    (∀ val, (read_key ch hash_key_bytes).2 = .ok val →
      (val.data_size = 4 →
        (keys_count ch).2 = .ok (from_be_bytes (val.bytes.take 4))) ∧
      (val.data_size ≠ 4 → (keys_count ch).2 = .error KERN_FAILURE)) := by
  unfold keys_count
  rcases h : read_key ch hash_key_bytes with ⟨t, r⟩
  rcases r with e | val
  · simp
  · refine ⟨by by_cases h4 : val.data_size = 4 <;> simp [h4], by simp, fun val2 hval2 => ?_⟩
    simp only [Except.ok.injEq] at hval2
    subst hval2
    by_cases h4 : val.data_size = 4 <;> simp [h4]

/-- Witness for `keys_count_spec`: the all-succeeding channel declares
`#KEY` with size 4 and payload 0,0,0,1, so the count is 1; the channel
declaring size 2 makes `keys_count` fail with `KERN_FAILURE` although
every channel call succeeded. -/
theorem keys_count_spec_witness :
    (keys_count chGood).2 = .ok 1 ∧
    (keys_count chBadSize).2 = .error KERN_FAILURE := by
  constructor
  · have h := ((keys_count_spec chGood).2.2
      { key := hash_key_bytes, data_size := 4,
        data_type := u32_to_be_bytes tUI32,
        bytes := [0, 0, 0, 1] ++ List.replicate 28 0 } rfl).1 rfl
    exact h.trans (by decide)
  · exact ((keys_count_spec chBadSize).2.2
      { key := hash_key_bytes, data_size := 2,
        data_type := u32_to_be_bytes tUI32,
        bytes := List.replicate 32 0 } rfl).2 (by decide)

/- Characterization of `write_key`, by cases on its checks. -/

/-- A value longer than 32 bytes is rejected before any channel call. -/
theorem write_key_too_long (ch : Chan) (key value : List Nat)
    (h : SMC_BYTES_LEN < value.length) :
    write_key ch key value = ([], .error KERN_INVALID_ARGUMENT) := by
  unfold write_key
  rw [if_pos h]

/-- A failing preceding `read_key` aborts `write_key` with its error. -/
theorem write_key_read_error (ch : Chan) (key value : List Nat) (t : Trace) (e : Int)
    (hlen : ¬ SMC_BYTES_LEN < value.length)
    (hr : read_key ch key = (t, .error e)) :
    write_key ch key value = (t, .error e) := by
  unfold write_key
  rw [if_neg hlen, hr]

/-- A `data_size` mismatch aborts `write_key` with
`KERN_INVALID_ARGUMENT` right after the read, issuing no further call. -/
theorem write_key_mismatch (ch : Chan) (key value : List Nat) (t : Trace) (rv : SMCVal)
    (hlen : ¬ SMC_BYTES_LEN < value.length)
    (hr : read_key ch key = (t, .ok rv))
    (hne : rv.data_size ≠ value.length) :
    write_key ch key value = (t, .error KERN_INVALID_ARGUMENT) := by
  unfold write_key
  rw [if_neg hlen, hr]
  dsimp only
  rw [if_pos hne]

/-- When both checks pass, `write_key` issues exactly the WRITE_BYTES
request after the read's calls and mirrors the channel's outcome. -/
theorem write_key_match (ch : Chan) (key value : List Nat) (t : Trace) (rv : SMCVal)
    (hlen : ¬ SMC_BYTES_LEN < value.length)
    (hr : read_key ch key = (t, .ok rv))
    (heq : rv.data_size = value.length) :
    write_key ch key value =
      match ch KERNEL_INDEX_SMC (write_request key value) with
      | .error e => (t ++ [(KERNEL_INDEX_SMC, write_request key value)], .error e)
      | .ok _ => (t ++ [(KERNEL_INDEX_SMC, write_request key value)], .ok ()) := by
  unfold write_key
  rw [if_neg hlen, hr]
  dsimp only
  rw [if_neg (by simp [heq])]

/-- C1: `write_key` fails with `KERN_INVALID_ARGUMENT` before any
channel call when the value exceeds 32 bytes; after the preceding
`read_key`, a mismatch between the declared `data_size` and the value
length fails with `KERN_INVALID_ARGUMENT` with no WRITE_BYTES call in
the trace; only when both checks pass is the single WRITE_BYTES call
issued, carrying the value zero-padded into the 32-byte buffer. -/
theorem write_key_validation (ch : Chan) (key value : List Nat) :
    (SMC_BYTES_LEN < value.length →
      write_key ch key value = ([], .error KERN_INVALID_ARGUMENT)) ∧
    (value.length ≤ SMC_BYTES_LEN →
      (∀ e, (read_key ch key).2 = .error e →
        write_key ch key value = ((read_key ch key).1, .error e)) ∧
      (∀ rv, (read_key ch key).2 = .ok rv →
        (rv.data_size ≠ value.length →
          write_key ch key value = ((read_key ch key).1, .error KERN_INVALID_ARGUMENT) ∧
          (∀ c ∈ (write_key ch key value).1, (c.2).data8 ≠ SMC_CMD_WRITE_BYTES)) ∧
        (rv.data_size = value.length →
          (write_key ch key value).1 =
            (read_key ch key).1 ++ [(KERNEL_INDEX_SMC, write_request key value)] ∧
          (write_request key value).data8 = SMC_CMD_WRITE_BYTES ∧
          (write_request key value).bytes =
            value ++ List.replicate (SMC_BYTES_LEN - value.length) 0 ∧
          (∀ out, ch KERNEL_INDEX_SMC (write_request key value) = .ok out →
            (write_key ch key value).2 = .ok ()) ∧
          (∀ e, ch KERNEL_INDEX_SMC (write_request key value) = .error e →
            (write_key ch key value).2 = .error e)))) := by
  by_cases hlen : SMC_BYTES_LEN < value.length
  · exact ⟨fun _ => write_key_too_long ch key value hlen, fun h => absurd hlen (by omega)⟩
  · refine ⟨fun h => absurd h hlen, fun _ => ⟨fun e he => ?_, fun rv hrv => ⟨fun hne => ?_, fun heq => ?_⟩⟩⟩
    · have hr : read_key ch key = ((read_key ch key).1, .error e) := by rw [← he]
      exact write_key_read_error ch key value (read_key ch key).1 e hlen hr
    · have hr : read_key ch key = ((read_key ch key).1, .ok rv) := by rw [← hrv]
      have hw := write_key_mismatch ch key value (read_key ch key).1 rv hlen hr hne
      refine ⟨hw, fun c hc => ?_⟩
      rw [hw] at hc
      rcases read_key_trace_opcodes ch key c hc with h9 | h5
      · rw [h9]; decide
      · rw [h5]; decide
    · have hr : read_key ch key = ((read_key ch key).1, .ok rv) := by rw [← hrv]
      have hw := write_key_match ch key value (read_key ch key).1 rv hlen hr heq
      refine ⟨?_, rfl, rfl, fun out hout => ?_, fun e herr => ?_⟩
      · rw [hw]
        split <;> rfl
      · rw [hw, hout]
      · rw [hw, herr]

/-- Witness for `write_key_validation`: on the all-succeeding channel
(which declares every key 4 bytes long), a 33-byte value is rejected
with an empty trace, a 3-byte value is rejected after the read, and a
4-byte value passes both checks and the write succeeds. -/
theorem write_key_validation_witness :
    write_key chGood abcd_bytes (List.replicate 33 0) = ([], .error KERN_INVALID_ARGUMENT) ∧
    (write_key chGood abcd_bytes [1, 2, 3]).2 = .error KERN_INVALID_ARGUMENT ∧
    (write_key chGood abcd_bytes [1, 2, 3, 4]).2 = .ok () := by
  refine ⟨?_, ?_, ?_⟩
  · exact (write_key_validation chGood abcd_bytes (List.replicate 33 0)).1 (by decide)
  · have h := ((((write_key_validation chGood abcd_bytes [1, 2, 3]).2 (by decide)).2
      { key := abcd_bytes, data_size := 4,
        data_type := u32_to_be_bytes tUI32,
        bytes := [0, 0, 0, 1] ++ List.replicate 28 0 } rfl).1 (by decide)).1
    rw [h]
  · exact ((((write_key_validation chGood abcd_bytes [1, 2, 3, 4]).2 (by decide)).2
      { key := abcd_bytes, data_size := 4,
        data_type := u32_to_be_bytes tUI32,
        bytes := [0, 0, 0, 1] ++ List.replicate 28 0 } rfl).2 (by decide)).2.2.2.1 {} rfl

/-- The property claimed of `read_key`: whenever its trace is a KEYINFO
call followed by a second call, the second request echoes both the
`data_size` and the `data_type` of the KEYINFO response. -/
def read_key_echoes_size_and_type (ch : Chan) (key : List Nat) : Prop :=
  ∀ r1 r2 out1,
    (read_key ch key).1 = [(KERNEL_INDEX_SMC, r1), (KERNEL_INDEX_SMC, r2)] →
    ch KERNEL_INDEX_SMC r1 = .ok out1 →
    (r2.key_info.data_size = out1.key_info.data_size ∧
     r2.key_info.data_type = out1.key_info.data_type)

/-- C2 counterexample: on the all-succeeding channel, whose KEYINFO
response declares type `ui32`, the READ_BYTES request of
`read_key ABCD` does not echo that `data_type` — the field stays at its
zero default, so the claimed echo property fails. -/
theorem read_key_type_echo_counterexample :
    ¬ read_key_echoes_size_and_type chGood abcd_bytes := by
  intro h
  have h2 := (h (keyinfo_request abcd_bytes) (read_bytes_request abcd_bytes 4)
    { key_info := { data_size := 4, data_type := tUI32 } } (by decide) rfl).2
  revert h2
  decide

/-- C2 (amended): `read_key` performs the KEYINFO call and then issues
the READ_BYTES call echoing the `data_size` obtained from the KEYINFO
response, while the request's `data_type` field keeps its zero default;
the returned key-value is assembled from the key, the KEYINFO metadata
(size and type) and the READ_BYTES payload. The iterator's read phase,
`read_key_with_info`, does echo both the size and the type. -/
theorem read_key_echoes_size (ch : Chan) (key : List Nat) (out1 : SMCKeyData)
    (hok : ch KERNEL_INDEX_SMC (keyinfo_request key) = .ok out1)
    (h132 : out1.result ≠ 132) :
    (read_key ch key).1 =
      [(KERNEL_INDEX_SMC, keyinfo_request key),
       (KERNEL_INDEX_SMC, read_bytes_request key out1.key_info.data_size)] ∧
    (read_bytes_request key out1.key_info.data_size).key_info.data_size =
      out1.key_info.data_size ∧
    (read_bytes_request key out1.key_info.data_size).key_info.data_type = 0 ∧
    (read_bytes_request key out1.key_info.data_size).data8 = SMC_CMD_READ_BYTES ∧
    (∀ out2, ch KERNEL_INDEX_SMC (read_bytes_request key out1.key_info.data_size) = .ok out2 →
      (read_key ch key).2 =
        .ok { key := key, data_size := out1.key_info.data_size,
              data_type := u32_to_be_bytes out1.key_info.data_type,
              bytes := out2.bytes }) ∧
    (∀ inp outp, ∃ r,
      (read_key_with_info ch inp outp).1 = [(KERNEL_INDEX_SMC, r)] ∧
      r.key_info.data_size = outp.key_info.data_size ∧
      r.key_info.data_type = outp.key_info.data_type ∧
      r.data8 = SMC_CMD_READ_BYTES) := by
  refine ⟨?_, rfl, rfl, rfl, ?_, ?_⟩
  · rw [read_key_after_keyinfo ch key out1 hok h132]
    split <;> rfl
  · intro out2 hout2
    rw [read_key_after_keyinfo ch key out1 hok h132, hout2]
  · intro inp outp
    unfold read_key_with_info
    dsimp only
    rcases ch KERNEL_INDEX_SMC _ with e | o
    · exact ⟨_, rfl, rfl, rfl, rfl⟩
    · exact ⟨_, rfl, rfl, rfl, rfl⟩

/-- Witness for `read_key_echoes_size`: the concrete two-call trace of
`read_key ABCD` on the all-succeeding channel, whose second request
echoes the declared size 4 and carries a zero `data_type`. -/
theorem read_key_echoes_size_witness :
    (read_key chGood abcd_bytes).1 =
      [(KERNEL_INDEX_SMC, keyinfo_request abcd_bytes),
       (KERNEL_INDEX_SMC, read_bytes_request abcd_bytes 4)] ∧
    (read_bytes_request abcd_bytes 4).key_info.data_type = 0 := by
  have h := read_key_echoes_size chGood abcd_bytes
    { key_info := { data_size := 4, data_type := tUI32 } } rfl (by decide)
  exact ⟨h.1, h.2.2.1⟩

/-- C3 counterexample: on the channel whose READ_INDEX calls fail with
code 7 while `keys_count` succeeds with count 1, `list_all_values` does
not skip the failing key: it aborts the enumeration with the READ_INDEX
error instead of returning the sequence of successes. -/
theorem list_all_aborts_on_index_failure :
    (keys_count chIdxFail).2 = .ok 1 ∧
    (list_all_values chIdxFail).2 = .error 7 := by
  constructor <;> rfl

/-- One-step unfolding of the `list_all_values` loop on a remaining
index. -/
theorem list_all_go_cons_eq (ch : Chan) (i : Nat) (rest : List Nat) :
    list_all_go ch (i :: rest) =
      match ch KERNEL_INDEX_SMC (read_index_request i) with
      | .error e => ([(KERNEL_INDEX_SMC, read_index_request i)], .error e)
      | .ok out =>
        match read_key ch (u32_to_be_bytes out.key) with
        | (t, .error _) =>
          ((KERNEL_INDEX_SMC, read_index_request i) :: t ++ (list_all_go ch rest).1,
           (list_all_go ch rest).2)
        | (t, .ok v) =>
          ((KERNEL_INDEX_SMC, read_index_request i) :: t ++ (list_all_go ch rest).1,
           (list_all_go ch rest).2.map (fun vs => v :: vs)) := rfl

/-- C3 (amended): `list_all_values` propagates a `keys_count` failure;
over the indices, a READ_INDEX channel failure aborts the whole
enumeration with that error, while a failure of the subsequent
`read_key` (KEYINFO or READ_BYTES phase) silently skips that index, the
loop continuing with only the successful key-values collected in
order. -/
theorem list_all_values_spec (ch : Chan) :
    (∀ e, (keys_count ch).2 = .error e → (list_all_values ch).2 = .error e) ∧
    (∀ n, (keys_count ch).2 = .ok n →
      (list_all_values ch).2 = (list_all_go ch (List.range n)).2) ∧
    (list_all_go ch []).2 = .ok [] ∧
    (∀ i rest,
      (∀ e, ch KERNEL_INDEX_SMC (read_index_request i) = .error e →
        (list_all_go ch (i :: rest)).2 = .error e) ∧
      (∀ out, ch KERNEL_INDEX_SMC (read_index_request i) = .ok out →
        (∀ e, (read_key ch (u32_to_be_bytes out.key)).2 = .error e →
          (list_all_go ch (i :: rest)).2 = (list_all_go ch rest).2) ∧
        (∀ v, (read_key ch (u32_to_be_bytes out.key)).2 = .ok v →
          (list_all_go ch (i :: rest)).2 =
            (list_all_go ch rest).2.map (fun vs => v :: vs)))) := by
  refine ⟨?_, ?_, rfl, ?_⟩
  · intro e he
    unfold list_all_values
    rcases hk : keys_count ch with ⟨t, r⟩
    rw [hk] at he
    rcases r with e2 | n
    · simp at he
      subst he
      rfl
    · simp at he
  · intro n hn
    unfold list_all_values
    rcases hk : keys_count ch with ⟨t, r⟩
    rw [hk] at hn
    rcases r with e2 | n2
    · simp at hn
    · obtain rfl : n2 = n := by simpa using hn
      rcases hg : list_all_go ch (List.range n2) with ⟨t2, r2⟩
      simp [hg]
  · intro i rest
    constructor
    · intro e he
      rw [list_all_go_cons_eq, he]
    · intro out hout
      constructor
      · intro e he
        rw [list_all_go_cons_eq, hout]
        dsimp only
        rcases hr : read_key ch (u32_to_be_bytes out.key) with ⟨t, r⟩
        rcases r with e2 | v
        · rfl
        · rw [hr] at he
          simp at he
      · intro v hv
        rw [list_all_go_cons_eq, hout]
        dsimp only
        rcases hr : read_key ch (u32_to_be_bytes out.key) with ⟨t, r⟩
        rcases r with e2 | v2
        · rw [hr] at hv
          simp at hv
        · rw [hr] at hv
          simp at hv
          subst hv
          rfl

/-- Witness for `list_all_values_spec`: a failing `keys_count`
propagates its error; a READ_INDEX failure at index 0 aborts the loop
with code 7; on the all-succeeding channel the single key is read and
collected. -/
theorem list_all_values_spec_witness :
    (list_all_values chCntFail).2 = .error 3 ∧
    (list_all_go chIdxFail [0]).2 = .error 7 ∧
    (list_all_go chRBFail [0]).2 = (list_all_go chRBFail []).2 ∧
    (list_all_go chGood [0]).2 = (list_all_go chGood []).2.map
      (fun vs => { key := abcd_bytes, data_size := 4,
                   data_type := u32_to_be_bytes tUI32,
                   bytes := [0, 0, 0, 1] ++ List.replicate 28 0 } :: vs) := by
  refine ⟨?_, ?_, ?_, ?_⟩
  · exact (list_all_values_spec chCntFail).1 3 rfl
  · exact ((list_all_values_spec chIdxFail).2.2.2 0 []).1 7 rfl
  · exact (((list_all_values_spec chRBFail).2.2.2 0 []).2 { key := kABCD } rfl).1 9 rfl
  · exact (((list_all_values_spec chGood).2.2.2 0 []).2 { key := kABCD } rfl).2
      { key := abcd_bytes, data_size := 4,
        data_type := u32_to_be_bytes tUI32,
        bytes := [0, 0, 0, 1] ++ List.replicate 28 0 } rfl

/- Characterization of the iterator. -/

/-- The KEYINFO request the iterator issues at index `cur` for the key
`k` obtained from READ_INDEX (the record still carries the index in
`data32`, since the iterator reuses one record pair across the
sub-phases). -/
def index_keyinfo_request (cur k : Nat) : SMCKeyData :=
  { key := k, data8 := SMC_CMD_READ_KEYINFO, data32 := cur }

/-- The READ_BYTES request the iterator issues at index `cur` for key
`k`, echoing both the `data_size` and the `data_type` of the KEYINFO
response. -/
def index_read_bytes_request (cur k : Nat) (ki : SMCKeyData_keyInfo) : SMCKeyData :=
  { key := k, data8 := SMC_CMD_READ_BYTES, data32 := cur,
    key_info := { data_size := ki.data_size, data_type := ki.data_type } }

/-- A `next()` with the cursor at or past the fixed count yields
nothing, issues no call and leaves the iterator unchanged. -/
theorem valIterNext_done (ch : Chan) (N cur : Nat) (h : N ≤ cur) :
    valIterNext ch ⟨N, cur⟩ = (⟨N, cur⟩, [], none) := by
  unfold valIterNext
  dsimp only
  rw [if_neg (by omega)]

/-- A `next()` with the cursor below the fixed count advances the
cursor by exactly one and yields an item, whatever the channel does and
at whichever sub-phase it fails; its calls are an initial segment of
the READ_INDEX, KEYINFO, READ_BYTES sequence (each opcode at most once,
no retry). -/
theorem valIterNext_step (ch : Chan) (N cur : Nat) (h : cur < N) :
    ∃ x t, valIterNext ch ⟨N, cur⟩ = (⟨N, cur + 1⟩, t, some x) ∧
      t.map (fun c => (c.2).data8) <+:
        [SMC_CMD_READ_INDEX, SMC_CMD_READ_KEYINFO, SMC_CMD_READ_BYTES] := by
  unfold valIterNext get_key_info_inner read_key_with_info
  dsimp only
  rw [if_pos h]
  simp only [read_index_request]
  rcases h1 : ch KERNEL_INDEX_SMC _ with e | out1
  · exact ⟨_, _, rfl, ⟨[SMC_CMD_READ_KEYINFO, SMC_CMD_READ_BYTES], rfl⟩⟩
  · dsimp only
    rcases h2 : ch KERNEL_INDEX_SMC _ with e | out2
    · exact ⟨_, _, rfl, ⟨[SMC_CMD_READ_BYTES], rfl⟩⟩
    · dsimp only
      by_cases h3 : out2.result = 132
      · rw [if_pos h3]
        exact ⟨_, _, rfl, ⟨[SMC_CMD_READ_BYTES], rfl⟩⟩
      · rw [if_neg h3]
        dsimp only
        rcases h4 : ch KERNEL_INDEX_SMC _ with e | out3
        · exact ⟨_, _, rfl, ⟨[], by simp⟩⟩
        · exact ⟨_, _, rfl, ⟨[], by simp⟩⟩

/-- Pulling the iterator with `fuel` allowed pulls yields
`min fuel (N - cur)` items. -/
theorem valIterRunAux_length (ch : Chan) (fuel : Nat) :
    ∀ N cur : Nat, (valIterRunAux ch fuel ⟨N, cur⟩).length = min fuel (N - cur) := by
  induction fuel with
  | zero => intro N cur; simp [valIterRunAux]
  | succ f ih =>
    intro N cur
    by_cases h : cur < N
    · obtain ⟨x, t, hx, -⟩ := valIterNext_step ch N cur h
      unfold valIterRunAux
      rw [hx]
      dsimp only [List.length_cons]
      rw [ih N (cur + 1)]
      omega
    · rw [valIterRunAux, valIterNext_done ch N cur (by omega)]
      simp
      omega

/-- C5: each `next()` with the cursor below the fixed count `N` advances
the cursor by exactly one and yields an item whatever the outcome of
the step, issuing each of READ_INDEX, KEYINFO, READ_BYTES at most once
and in that order (no retry); each `next()` with the cursor at or past
`N` yields nothing; the full pull sequence yields exactly `N - cur`
items (so exactly `N` from a fresh iterator), successes and errors
combined; and the iterator built by `values_iter` starts at cursor 0
with the count fetched once from `keys_count`. -/
theorem values_iter_spec (ch : Chan) (N cur : Nat) :
    (cur < N →
      (valIterNext ch ⟨N, cur⟩).1 = ⟨N, cur + 1⟩ ∧
      ((valIterNext ch ⟨N, cur⟩).2.2).isSome = true ∧
      ((valIterNext ch ⟨N, cur⟩).2.1.map (fun c => (c.2).data8)) <+:
        [SMC_CMD_READ_INDEX, SMC_CMD_READ_KEYINFO, SMC_CMD_READ_BYTES]) ∧
    (N ≤ cur → valIterNext ch ⟨N, cur⟩ = (⟨N, cur⟩, [], none)) ∧
    (valIterRun ch ⟨N, cur⟩).length = N - cur ∧
    (∀ n, (keys_count ch).2 = .ok n →
      (values_iter ch).2 = .ok ⟨n, 0⟩ ∧ (valIterRun ch ⟨n, 0⟩).length = n) := by
  refine ⟨?_, valIterNext_done ch N cur, ?_, ?_⟩
  · intro h
    obtain ⟨x, t, hx, hpre⟩ := valIterNext_step ch N cur h
    rw [hx]
    exact ⟨rfl, rfl, hpre⟩
  · unfold valIterRun
    dsimp only
    rw [valIterRunAux_length ch (N - cur) N cur]
    omega
  · intro n hn
    constructor
    · unfold values_iter
      rcases hk : keys_count ch with ⟨t, r⟩
      rw [hk] at hn
      rcases r with e | n2
      · simp at hn
      · obtain rfl : n2 = n := by simpa using hn
        rfl
    · unfold valIterRun
      dsimp only
      rw [valIterRunAux_length ch (n - 0) n 0]
      omega

/-- Witness for `values_iter_spec`: on the all-succeeding channel with
count 1, the fresh iterator advances from cursor 0 to 1 yielding one
item, yields nothing at cursor 1, and the full pull sequence has
exactly one item. -/
theorem values_iter_spec_witness :
    (valIterNext chGood ⟨1, 0⟩).1 = ⟨1, 1⟩ ∧
    ((valIterNext chGood ⟨1, 0⟩).2.2).isSome = true ∧
    valIterNext chGood ⟨1, 1⟩ = (⟨1, 1⟩, [], none) ∧
    (valIterRun chGood ⟨1, 0⟩).length = 1 - 0 ∧
    (values_iter chGood).2 = .ok ⟨1, 0⟩ :=
  ⟨((values_iter_spec chGood 1 0).1 (by decide)).1,
   ((values_iter_spec chGood 1 0).1 (by decide)).2.1,
   (values_iter_spec chGood 1 1).2.1 (by decide),
   (values_iter_spec chGood 1 0).2.2.1,
   ((values_iter_spec chGood 1 0).2.2.2 1 rfl).1⟩

/-- C6: the iterator populates the error of a failed step
progressively: a READ_INDEX failure carries only the index and the
error code; a KEYINFO failure (channel error or sentinel result 132)
adds the key; a READ_BYTES failure adds the declared size and type from
the KEYINFO response. -/
theorem valiter_error_population (ch : Chan) (N cur : Nat) (h : cur < N) :
    (∀ e, ch KERNEL_INDEX_SMC (read_index_request cur) = .error e →
      (valIterNext ch ⟨N, cur⟩).2.2 =
        some (.error { err_code := e, index := cur, key := none,
                       data_size := none, data_type := none })) ∧
    (∀ out1, ch KERNEL_INDEX_SMC (read_index_request cur) = .ok out1 →
      (∀ e, ch KERNEL_INDEX_SMC (index_keyinfo_request cur out1.key) = .error e →
        (valIterNext ch ⟨N, cur⟩).2.2 =
          some (.error { err_code := e, index := cur, key := some out1.key,
                         data_size := none, data_type := none })) ∧
      (∀ out2, ch KERNEL_INDEX_SMC (index_keyinfo_request cur out1.key) = .ok out2 →
        (out2.result = 132 →
          (valIterNext ch ⟨N, cur⟩).2.2 =
            some (.error { err_code := KERN_NOT_SUPPORTED, index := cur,
                           key := some out1.key, data_size := none, data_type := none })) ∧
        (out2.result ≠ 132 →
          ∀ e, ch KERNEL_INDEX_SMC (index_read_bytes_request cur out1.key out2.key_info) =
              .error e →
            (valIterNext ch ⟨N, cur⟩).2.2 =
              some (.error { err_code := e, index := cur, key := some out1.key,
                             data_size := some out2.key_info.data_size,
                             data_type := some out2.key_info.data_type })))) := by
  refine ⟨?_, ?_⟩
  · intro e he
    unfold valIterNext
    dsimp only
    rw [if_pos h, he]
  · intro out1 hout1
    refine ⟨?_, fun out2 hout2 => ⟨?_, ?_⟩⟩
    · intro e he
      unfold valIterNext get_key_info_inner
      dsimp only
      rw [if_pos h, hout1]
      simp only [read_index_request]
      simp only [index_keyinfo_request] at he
      rw [he]
    · intro h132
      unfold valIterNext get_key_info_inner
      dsimp only
      rw [if_pos h, hout1]
      simp only [read_index_request]
      simp only [index_keyinfo_request] at hout2
      rw [hout2]
      dsimp only
      rw [if_pos h132]
    · intro h132 e he
      unfold valIterNext get_key_info_inner read_key_with_info
      dsimp only
      rw [if_pos h, hout1]
      simp only [read_index_request]
      simp only [index_keyinfo_request] at hout2
      rw [hout2]
      dsimp only
      rw [if_neg h132]
      dsimp only
      simp only [index_read_bytes_request] at he
      rw [he]

/-- Witness for `valiter_error_population`: the three failure phases at
index 0 on three concrete channels — READ_INDEX failing with 7, KEYINFO
answering the sentinel 132 for key `ABCD`, and READ_BYTES failing with
9 after a KEYINFO declaring a 4-byte `ui32`. -/
theorem valiter_error_population_witness :
    (valIterNext chIdxFail ⟨1, 0⟩).2.2 =
      some (.error { err_code := 7, index := 0, key := none,
                     data_size := none, data_type := none }) ∧
    (valIterNext ch132 ⟨1, 0⟩).2.2 =
      some (.error { err_code := KERN_NOT_SUPPORTED, index := 0, key := some kABCD,
                     data_size := none, data_type := none }) ∧
    (valIterNext chRBFail ⟨1, 0⟩).2.2 =
      some (.error { err_code := 9, index := 0, key := some kABCD,
                     data_size := some 4, data_type := some tUI32 }) := by
  refine ⟨?_, ?_, ?_⟩
  · exact (valiter_error_population chIdxFail 1 0 (by decide)).1 7 rfl
  · exact (((valiter_error_population ch132 1 0 (by decide)).2 { key := kABCD } rfl).2
      { result := 132 } rfl).1 rfl
  · exact (((valiter_error_population chRBFail 1 0 (by decide)).2 { key := kABCD } rfl).2
      { key_info := { data_size := 4, data_type := tUI32 } } rfl).2 (by decide) 9 rfl
